import Mathlib

/-!
Shallow embedding of `src/streamlit_app.py` (Asia SST dashboard).

The program fetches a daily sea-surface-temperature grid for a selected
date from a yearly remote NetCDF file, trying an ordered list of xarray
access engines, subsets it to the Asia box, and renders it with one of
two matplotlib renderers depending on cartopy availability.

Modelling choices:
  * A calendar date is a record of year/month/day numbers (`PDate`).
  * The remote world is an `Env`: per engine, `open_dataset` either
    raises (an error string) or yields a `Dataset`; per engine,
    `DataArray.load()` either raises or succeeds.  Python exceptions are
    `Except String` values; the `try/except` loop of `load_sst_data`
    is the fold over the engine list.
  * Coordinate values and temperatures are rationals; a missing value
    (NaN in the source) is `Option.none`.
  * `xr.Dataset.sel(time=., lat=slice(-10,60), lon=slice(60,150))` is
    an exact membership test on the time axis plus an inclusive range
    filter on the (monotonically ascending, as in OISST) lat/lon axes;
    `.load()` materializes the cells into concrete lists.
  * Resource behaviour (which `open_dataset` handles get `close()`d) is
    recorded as an event trace alongside the returned outcome.
-/

namespace AsiaSST

/-- A Python `datetime.date`: the user-selected calendar date. -/
structure PDate where
  year : Nat
  month : Nat
  day : Nat
deriving DecidableEq, Repr

/-- The `sst` variable of the remote dataset: its `time`, `lat`, `lon`
coordinate axes and the cell values (none = NaN / missing). -/
structure SstVar where
  times : List PDate
  lats : List Rat
  lons : List Rat
  val : PDate → Rat → Rat → Option Rat

/-- A remotely opened `xr.Dataset`: the set of variable names it carries
and the `sst` variable payload. -/
structure Dataset where
  varNames : List String
  sst : SstVar

/-- The environment one fetch call runs against: per access engine,
what `xr.open_dataset` does (raise, or return a dataset) and whether the
subsequent `.load()` materialization raises. -/
structure Env where
  openDS : Option String → Except String Dataset
  loadErr : Option String → Option String

/-- The materialized 2-D grid returned on success: date tag, the
clipped coordinate axes, and the fully realized cell values
(row per latitude, entry per longitude). -/
structure SstGrid where
  date : PDate
  lats : List Rat
  lons : List Rat
  values : List (List (Option Rat))
deriving DecidableEq, Repr

/-- Result of `load_sst_data`: either the grid, or the `None` return
accompanied by the `st.error` message shown to the user. -/
inductive FetchOutcome where
  | success (g : SstGrid)
  | unavailable (msg : String)
deriving DecidableEq, Repr

/-- Resource events of one fetch call: an `xr.open_dataset` handle was
created for an engine, or `ds.close()` was called on it. -/
inductive Ev where
  | opened (eng : Option String)
  | closed (eng : Option String)
deriving DecidableEq, Repr

/-- The THREDDS base locator, up to the year component
(`data_url` in `load_sst_data`). -/
def urlBase : String :=
  "https://psl.noaa.gov/thredds/dodsC/Datasets/noaa.oisst.v2.highres/sst.day.mean."

/-- `data_url` of `load_sst_data`: the yearly file locator derived from
the selected date. -/
def data_url (d : PDate) : String :=
  urlBase ++ toString d.year ++ ".nc"

/-- The message of the `KeyError` raised by `.sel(time=...)` when the
requested date has no time slice in the file. -/
def timeKeyError (d : PDate) : String :=
  "KeyError: no index found for time " ++ toString d.year ++ "-" ++
    toString d.month ++ "-" ++ toString d.day

/-- The message of the `KeyError` raised when the opened dataset has no
`sst` variable (line 71 of the source). -/
def missingVarMsg : String :=
  "변수 sst 를 찾을 수 없습니다."

/-- The part of the `st.error` text (lines 86-94) before the
interpolated last error. -/
def failPrefix : String := "데이터 로딩 실패 😢\n\n- 마지막 오류: "

/-- The part of the `st.error` text (lines 86-94) after the
interpolated last error. -/
def failSuffix : String :=
  "\n가능한 원인\n1) 인터넷/방화벽 문제\n2) NOAA 서버 지연/점검 중\n" ++
    "3) 선택 날짜 데이터가 아직 집계되지 않음(특히 최근 일자)\n" ++
    "→ 날짜를 1~3일 더 이전으로 바꿔보세요."

/-- The `st.error` text built at lines 86-94 of the source, with the
last observed error interpolated (Python renders a missing error,
which cannot occur after a nonempty engine list, as the string None). -/
def failMessage (last : Option String) : String :=
  failPrefix ++ (match last with | some e => e | none => "None") ++ failSuffix

/-- The ordered engine list of line 64: `engines_to_try = ["pydap", None]`. -/
def engines_to_try : List (Option String) := [some "pydap", none]

/-- The body of lines 73-79: `.sel(time=d, lat=slice(-10,60),
lon=slice(60,150)).squeeze()` followed by `.load()`, on ascending
coordinate axes — an inclusive range filter on lat/lon, with the cells
materialized into concrete lists. -/
def sliceGrid (v : SstVar) (d : PDate) : SstGrid :=
  let lats := v.lats.filter (fun la => decide ((-10 : Rat) ≤ la ∧ la ≤ 60))
  let lons := v.lons.filter (fun lo => decide ((60 : Rat) ≤ lo ∧ lo ≤ 150))
  { date := d
    lats := lats
    lons := lons
    values := lats.map (fun la => lons.map (fun lo => v.val d la lo)) }

/-- The steps of the `try` body after a successful `open_dataset`:
check the `sst` variable is present, select the exact time slice
(KeyError when the date is absent — no nearest-neighbour fallback),
then materialize via `.load()` (which may itself raise). -/
def attemptRest (env : Env) (eng : Option String) (ds : Dataset)
    (d : PDate) : Except String SstGrid :=
  if "sst" ∈ ds.varNames then
    if d ∈ ds.sst.times then
      match env.loadErr eng with
      | some e => Except.error e
      | none => Except.ok (sliceGrid ds.sst d)
    else Except.error (timeKeyError d)
  else Except.error missingVarMsg

/-- One full engine attempt of the `for eng in engines_to_try` loop:
`open_dataset` followed by `attemptRest`; any raise surfaces as the
error value caught by the `except` clause. -/
def attemptEngine (env : Env) (d : PDate) (eng : Option String) :
    Except String SstGrid :=
  match env.openDS eng with
  | Except.error e => Except.error e
  | Except.ok ds => attemptRest env eng ds d

/-- The open/close events produced by one engine attempt.  A failed
open creates no handle; the source calls `ds.close()` (line 80) only on
the path that reaches the `return`, so an attempt failing after a
successful open leaves its handle unclosed. -/
def attemptTrace (env : Env) (d : PDate) (eng : Option String) :
    List Ev :=
  match env.openDS eng with
  | Except.error _ => []
  | Except.ok ds =>
    match attemptRest env eng ds d with
    | Except.ok _ => [Ev.opened eng, Ev.closed eng]
    | Except.error _ => [Ev.opened eng]

/-- The engine loop of lines 67-95: try each engine in order, return on
the first success, remember the last error, and fall through to the
`st.error` + `return None` path when the list is exhausted.  Also
returns the event trace and the number of engine attempts made. -/
def loadAux (env : Env) (d : PDate) :
    List (Option String) → Option String → FetchOutcome × List Ev × Nat
  | [], last => (FetchOutcome.unavailable (failMessage last), [], 0)
  | eng :: rest, _ =>
    match attemptEngine env d eng with
    | Except.ok g => (FetchOutcome.success g, attemptTrace env d eng, 1)
    | Except.error e =>
      let r := loadAux env d rest (some e)
      (r.1, attemptTrace env d eng ++ r.2.1, r.2.2 + 1)

/-- `load_sst_data` (lines 52-95): the fetch outcome for one date. -/
def load_sst_data (env : Env) (d : PDate) : FetchOutcome :=
  (loadAux env d engines_to_try none).1

/-- The open/close event trace of one `load_sst_data` call. -/
def fetchTrace (env : Env) (d : PDate) : List Ev :=
  (loadAux env d engines_to_try none).2.1

/-- How many engine attempts (network access attempts) one
`load_sst_data` call makes. -/
def fetchAttempts (env : Env) (d : PDate) : Nat :=
  (loadAux env d engines_to_try none).2.2

/-- Number of `opened` events in a trace. -/
def countOpens (tr : List Ev) : Nat :=
  tr.countP (fun e => match e with | Ev.opened _ => true | Ev.closed _ => false)

/-- Number of `closed` events in a trace. -/
def countCloses (tr : List Ev) : Nat :=
  tr.countP (fun e => match e with | Ev.opened _ => false | Ev.closed _ => true)

/-- The `@st.cache_data` memoization wrapping `load_sst_data`: an
association list keyed by the date argument.  Returns the outcome, the
updated cache, and how many network (engine) attempts the call issued. -/
def cachedLoad (env : Env) (cache : List (PDate × FetchOutcome))
    (d : PDate) : FetchOutcome × List (PDate × FetchOutcome) × Nat :=
  match cache.find? (fun p => decide (p.1 = d)) with
  | some p => (p.2, cache, 0)
  | none =>
    let r := load_sst_data env d
    (r, (d, r) :: cache, fetchAttempts env d)

/-- The Korean date stamp `selected_date.strftime("%Y년 %m월 %d일")`. -/
def formatDate (d : PDate) : String :=
  toString d.year ++ "년 " ++
    (if d.month < 10 then "0" ++ toString d.month else toString d.month) ++ "월 " ++
    (if d.day < 10 then "0" ++ toString d.day else toString d.day) ++ "일"

/-- `matplotlib.colors.TwoSlopeNorm(vmin, vcenter, vmax)` applied to a
value: the piecewise-linear interpolation of `np.interp` through
(vmin, 0), (vcenter, 1/2), (vmax, 1), clamped outside the range. -/
def twoSlopeNorm (vmin vcenter vmax x : Rat) : Rat :=
  if x ≤ vmin then 0
  else if x ≤ vcenter then (x - vmin) / (vcenter - vmin) / 2
  else if x ≤ vmax then 1 / 2 + (x - vcenter) / (vmax - vcenter) / 2
  else 1

/-- The normalization built at line 122 of `create_map_with_cartopy`:
`TwoSlopeNorm(vmin=20, vcenter=30, vmax=34)`. -/
def cartopy_norm : Rat → Rat := twoSlopeNorm 20 30 34

/-- The palette chosen at line 123 of `create_map_with_cartopy`. -/
def cartopy_cmap : String := "YlOrRd"

/-- The normalization built at line 144 of `create_simple_latlon_plot`:
`TwoSlopeNorm(vmin=20, vcenter=30, vmax=34)`. -/
def simple_norm : Rat → Rat := twoSlopeNorm 20 30 34

/-- The palette chosen at line 145 of `create_simple_latlon_plot`. -/
def simple_cmap : String := "YlOrRd"

/-- The figure produced by the projected (cartopy) renderer: the fixed
map extent of line 106, the color mapping, and the date-stamped title. -/
structure CartopyFigure where
  extent : Rat × Rat × Rat × Rat
  norm : Rat → Rat
  cmap : String
  title : String

/-- The figure produced by the plain lat/lon renderer: the color
mapping, the axis limits of lines 157-158, the dashed grid of line 159
and the date-stamped title. -/
structure PlainFigure where
  norm : Rat → Rat
  cmap : String
  xlim : Rat × Rat
  ylim : Rat × Rat
  title : String
  gridDashed : Bool

/-- `create_map_with_cartopy` (lines 98-137): fixed extent
[60,150]×[-10,60], `TwoSlopeNorm(20,30,34)` with the YlOrRd palette,
date-stamped title. -/
def create_map_with_cartopy (_g : SstGrid) (d : PDate) : CartopyFigure :=
  { extent := (60, 150, -10, 60)
    norm := cartopy_norm
    cmap := cartopy_cmap
    title := "해수면 온도: " ++ formatDate d }

/-- `create_simple_latlon_plot` (lines 139-160): same color mapping,
axis limits `lon.min()..lon.max()` and `lat.min()..lat.max()` taken
from the grid's own coordinate arrays.  `numpy` raises a fatal
`ValueError` when `min`/`max` is taken on an empty coordinate array,
which the source does not catch: that path yields no figure. -/
def create_simple_latlon_plot (g : SstGrid) (d : PDate) :
    Option PlainFigure :=
  match g.lons.min?, g.lons.max?, g.lats.min?, g.lats.max? with
  | some lo1, some lo2, some la1, some la2 =>
    some { norm := simple_norm
           cmap := simple_cmap
           xlim := (lo1, lo2)
           ylim := (la1, la2)
           title := "(Cartopy 미사용) 해수면 온도: " ++ formatDate d
           gridDashed := true }
  | _, _, _, _ => none

/-- What the shell does with a fetch outcome. -/
inductive ShellView where
  | figureProjected (g : SstGrid)
  | figurePlain (g : SstGrid)
  | notice
deriving DecidableEq, Repr

/-- `sst_data.isnull().all()`: every cell of the grid is missing
(vacuously true for an empty grid, as for numpy's `all`). -/
def allNullGrid (g : SstGrid) : Bool :=
  g.values.all (fun row => row.all (fun c => c.isNone))

/-- The branching of `main` (lines 184-205): a renderer is invoked only
when the outcome is a grid that is not all-missing; the renderer is
chosen by the process-wide `HAS_CARTOPY` flag; otherwise only the
textual notice is shown. -/
def mainView (hasCartopy : Bool) (out : FetchOutcome) : ShellView :=
  match out with
  | FetchOutcome.success g =>
    if allNullGrid g then ShellView.notice
    else if hasCartopy then ShellView.figureProjected g
    else ShellView.figurePlain g
  | FetchOutcome.unavailable _ => ShellView.notice

/-! Concrete environments used to exercise the fetcher. -/

/-- A concrete selected date. -/
def dJul : PDate := ⟨2023, 7, 15⟩

/-- A remote dataset that carries no `sst` variable. -/
def dsNoSst : Dataset :=
  { varNames := ["anom"]
    sst := { times := [], lats := [], lons := [], val := fun _ _ _ => none } }

/-- A healthy remote dataset: has `sst`, carries the requested date,
and coordinate axes straddling the Asia box. -/
def dsGood : Dataset :=
  { varNames := ["sst"]
    sst := { times := [dJul]
             lats := [-20, 0, 50, 70]
             lons := [50, 100, 150, 200]
             val := fun _ _ _ => some 25 } }

/-- Environment where every engine opens the healthy dataset. -/
def envPydapOk : Env :=
  { openDS := fun _ => Except.ok dsGood
    loadErr := fun _ => none }

/-- Environment where every engine's open raises a connectivity error. -/
def envAllFail : Env :=
  { openDS := fun _ => Except.error "connection refused"
    loadErr := fun _ => none }

/-- Environment where the pydap engine opens a dataset lacking `sst`
(the attempt fails after a successful open) while the default engine
attempt fully succeeds. -/
def envPostOpen : Env :=
  { openDS := fun eng =>
      match eng with
      | some _ => Except.ok dsNoSst
      | none => Except.ok dsGood
    loadErr := fun _ => none }

/-- Environment where the pydap engine opens a dataset lacking `sst`
and the default engine's open then fails: the pydap handle is opened
and never closed. -/
def envLeak : Env :=
  { openDS := fun eng =>
      match eng with
      | some _ => Except.ok dsNoSst
      | none => Except.error "connection refused"
    loadErr := fun _ => none }

/-! Helper lemmas about the engine loop. -/

/-- Any run of the engine loop ends in a grid or in the uniform
`st.error` outcome. -/
lemma loadAux_shape (env : Env) (d : PDate) :
    ∀ (engs : List (Option String)) (last : Option String),
      (∃ g, (loadAux env d engs last).1 = FetchOutcome.success g) ∨
      (∃ e, (loadAux env d engs last).1 = FetchOutcome.unavailable (failMessage e)) := by
  intro engs
  induction engs with
  | nil => intro last; exact Or.inr ⟨last, rfl⟩
  | cons eng rest ih =>
    intro last
    cases h : attemptEngine env d eng with
    | ok g => exact Or.inl ⟨g, by simp [loadAux, h]⟩
    | error e =>
      rcases ih (some e) with ⟨g, hg⟩ | ⟨e2, he⟩
      · exact Or.inl ⟨g, by simp [loadAux, h, hg]⟩
      · exact Or.inr ⟨e2, by simp [loadAux, h, he]⟩

/-- A successful loop run comes from a successful attempt of one of the
listed engines. -/
lemma loadAux_success_attempt (env : Env) (d : PDate) :
    ∀ (engs : List (Option String)) (last : Option String) (g : SstGrid),
      (loadAux env d engs last).1 = FetchOutcome.success g →
      ∃ eng ∈ engs, attemptEngine env d eng = Except.ok g := by
  intro engs
  induction engs with
  | nil => intro last g h; simp [loadAux] at h
  | cons eng rest ih =>
    intro last g h
    cases he : attemptEngine env d eng with
    | ok g2 =>
      refine ⟨eng, by simp, ?_⟩
      simp [loadAux, he] at h
      rw [he, h]
    | error e =>
      simp [loadAux, he] at h
      obtain ⟨eng2, hm, ha⟩ := ih (some e) g h
      exact ⟨eng2, by simp [hm], ha⟩

/-- Inversion of a successful engine attempt: the open succeeded, the
`sst` variable was present, the date had a time slice, `.load()` did
not raise, and the result is the materialized Asia-box slice. -/
lemma attemptEngine_ok (env : Env) (d : PDate) (eng : Option String)
    (g : SstGrid) (h : attemptEngine env d eng = Except.ok g) :
    ∃ ds, env.openDS eng = Except.ok ds ∧ "sst" ∈ ds.varNames ∧
      d ∈ ds.sst.times ∧ env.loadErr eng = none ∧ g = sliceGrid ds.sst d := by
  unfold attemptEngine at h
  cases ho : env.openDS eng with
  | error e => rw [ho] at h; cases h
  | ok ds =>
    rw [ho] at h
    unfold attemptRest at h
    by_cases hv : "sst" ∈ ds.varNames
    · by_cases ht : d ∈ ds.sst.times
      · cases hl : env.loadErr eng with
        | some e => simp [hv, ht, hl] at h
        | none =>
          simp [hv, ht, hl] at h
          exact ⟨ds, rfl, hv, ht, rfl, h.symm⟩
      · simp [hv, ht] at h
    · simp [hv] at h

/-- Every latitude kept by the Asia-box slice lies in [-10, 60]. -/
lemma sliceGrid_lat_mem (v : SstVar) (d : PDate) :
    ∀ la ∈ (sliceGrid v d).lats, (-10 : Rat) ≤ la ∧ la ≤ 60 := by
  intro la hla
  simp only [sliceGrid, List.mem_filter, decide_eq_true_eq] at hla
  exact hla.2

/-- Every longitude kept by the Asia-box slice lies in [60, 150]. -/
lemma sliceGrid_lon_mem (v : SstVar) (d : PDate) :
    ∀ lo ∈ (sliceGrid v d).lons, (60 : Rat) ≤ lo ∧ lo ≤ 150 := by
  intro lo hlo
  simp only [sliceGrid, List.mem_filter, decide_eq_true_eq] at hlo
  exact hlo.2

/-- The cell rows of the Asia-box slice are the materialized values at
its own coordinate axes. -/
lemma sliceGrid_values (v : SstVar) (d : PDate) :
    (sliceGrid v d).values =
      (sliceGrid v d).lats.map (fun la =>
        (sliceGrid v d).lons.map (fun lo => v.val d la lo)) := rfl

/-- Inversion of a produced plain figure: the coordinate extrema exist
and fill the figure's fields. -/
lemma create_simple_some (g : SstGrid) (d : PDate) (fig : PlainFigure)
    (h : create_simple_latlon_plot g d = some fig) :
    ∃ lo1 lo2 la1 la2,
      g.lons.min? = some lo1 ∧ g.lons.max? = some lo2 ∧
      g.lats.min? = some la1 ∧ g.lats.max? = some la2 ∧
      fig = { norm := simple_norm, cmap := simple_cmap,
              xlim := (lo1, lo2), ylim := (la1, la2),
              title := "(Cartopy 미사용) 해수면 온도: " ++ formatDate d,
              gridDashed := true } := by
  unfold create_simple_latlon_plot at h
  rcases h1 : g.lons.min? with _ | lo1 <;> rw [h1] at h <;>
    rcases h2 : g.lons.max? with _ | lo2 <;> rw [h2] at h <;>
    rcases h3 : g.lats.min? with _ | la1 <;> rw [h3] at h <;>
    rcases h4 : g.lats.max? with _ | la2 <;> rw [h4] at h <;>
    simp only [Option.some.injEq, reduceCtorEq] at h
  exact ⟨lo1, lo2, la1, la2, rfl, rfl, rfl, rfl, h.symm⟩

/-- The coordinate minimum of a nonempty axis exists. -/
lemma min?_of_ne_nil (xs : List Rat) (h : xs ≠ []) :
    ∃ a, xs.min? = some a := by
  cases xs with
  | nil => exact absurd rfl h
  | cons x t => exact ⟨_, List.min?_cons⟩

/-- The coordinate maximum of a nonempty axis exists. -/
lemma max?_of_ne_nil (xs : List Rat) (h : xs ≠ []) :
    ∃ a, xs.max? = some a := by
  cases xs with
  | nil => exact absurd rfl h
  | cons x t => exact ⟨_, List.max?_cons⟩

/-- `List.min?` computes the least member (rational axes). -/
lemma min?_spec (xs : List Rat) (a : Rat) (h : xs.min? = some a) :
    a ∈ xs ∧ ∀ b ∈ xs, a ≤ b := by
  haveI : Std.Antisymm (fun x1 x2 : Rat => x1 ≤ x2) :=
    ⟨fun h1 h2 => le_antisymm h1 h2⟩
  rw [List.min?_eq_some_iff le_refl min_choice (fun _ _ _ => le_min_iff)] at h
  exact h

/-- `List.max?` computes the greatest member (rational axes). -/
lemma max?_spec (xs : List Rat) (a : Rat) (h : xs.max? = some a) :
    a ∈ xs ∧ ∀ b ∈ xs, b ≤ a := by
  haveI : Std.Antisymm (fun x1 x2 : Rat => x1 ≤ x2) :=
    ⟨fun h1 h2 => le_antisymm h1 h2⟩
  rw [List.max?_eq_some_iff le_refl max_choice (fun _ _ _ => max_le_iff)] at h
  exact h

/-! Claim theorems. -/

/-- C1: for every environment and date, `load_sst_data` never lets an
exception escape: its result is either a grid or the single uniform
unavailable outcome carrying the diagnostic `st.error` message. -/
theorem load_sst_data_no_escape (env : Env) (d : PDate) :
    (∃ g, load_sst_data env d = FetchOutcome.success g) ∨
    (∃ e, load_sst_data env d = FetchOutcome.unavailable (failMessage e)) :=
  loadAux_shape env d engines_to_try none

/-- C7: the dataset locator depends only on the year component of the
selected date — two dates with equal years give identical locator
strings — and has the form `.../sst.day.mean.YYYY.nc`. -/
theorem locator_year_only :
    (∀ d1 d2 : PDate, d1.year = d2.year → data_url d1 = data_url d2) ∧
    (∀ d : PDate, data_url d = urlBase ++ toString d.year ++ ".nc") := by
  constructor
  · intro d1 d2 h
    simp [data_url, h]
  · intro d
    rfl

/-- Witness for C7: 2023-07-15 and 2023-01-02 share a locator. -/
theorem locator_year_only_witness :
    data_url ⟨2023, 7, 15⟩ = data_url ⟨2023, 1, 2⟩ :=
  locator_year_only.1 ⟨2023, 7, 15⟩ ⟨2023, 1, 2⟩ rfl

/-- C6: both renderers use the identical normalization and palette
(`TwoSlopeNorm(20, 30, 34)` with YlOrRd); that mapping sends 30 °C to
the scale's center 1/2, all values ≤ 20 °C to the low end 0, and all
values ≥ 34 °C to the high end 1. -/
theorem color_mapping_shared :
    cartopy_norm = simple_norm ∧ cartopy_cmap = simple_cmap ∧
    simple_norm 30 = 1 / 2 ∧
    (∀ x : Rat, x ≤ 20 → simple_norm x = 0) ∧
    (∀ x : Rat, 34 ≤ x → simple_norm x = 1) ∧
    (∀ (g : SstGrid) (d : PDate),
      (create_map_with_cartopy g d).norm = simple_norm ∧
      (create_map_with_cartopy g d).cmap = simple_cmap) ∧
    (∀ (g : SstGrid) (d : PDate) (fig : PlainFigure),
      create_simple_latlon_plot g d = some fig →
      fig.norm = simple_norm ∧ fig.cmap = simple_cmap) := by
  refine ⟨rfl, rfl, by norm_num [simple_norm, twoSlopeNorm], ?_, ?_, ?_, ?_⟩
  · intro x hx
    simp [simple_norm, twoSlopeNorm, hx]
  · intro x hx
    unfold simple_norm twoSlopeNorm
    rw [if_neg (by linarith), if_neg (by linarith)]
    split_ifs with h3
    · have hx34 : x = 34 := le_antisymm h3 hx
      subst hx34
      norm_num
    · rfl
  · intro g d
    exact ⟨rfl, rfl⟩
  · intro g d fig h
    obtain ⟨lo1, lo2, la1, la2, _, _, _, _, hfig⟩ := create_simple_some g d fig h
    subst hfig
    exact ⟨rfl, rfl⟩

/-- Witness for C6: 18 °C maps to the low end, 40 °C to the high end. -/
theorem color_mapping_shared_witness :
    simple_norm 18 = 0 ∧ simple_norm 40 = 1 :=
  ⟨color_mapping_shared.2.2.2.1 18 (by norm_num),
   color_mapping_shared.2.2.2.2.1 40 (by norm_num)⟩

/-- C2 counterexample: in `envPostOpen` the pydap attempt raises after
a successful open (the dataset lacks `sst`), yet the call returns a
grid because the default-engine attempt succeeds — so an error raised
after a successful open does not always yield a failure outcome for
the call. -/
theorem post_open_error_not_call_failure :
    envPostOpen.openDS (some "pydap") = Except.ok dsNoSst ∧
    attemptEngine envPostOpen dJul (some "pydap") = Except.error missingVarMsg ∧
    load_sst_data envPostOpen dJul =
      FetchOutcome.success (sliceGrid dsGood.sst dJul) := by
  exact ⟨rfl, rfl, rfl⟩

/-- C2 (amended): if every engine attempt fails — a post-open raise
(missing variable, time-slice selection, materialization) failing that
attempt like any other — the call returns the unavailable outcome
carrying the last error observed, after exactly one attempt per listed
engine and no more. -/
theorem all_attempts_fail_last_error (env : Env) (d : PDate) (e1 e2 : String)
    (h1 : attemptEngine env d (some "pydap") = Except.error e1)
    (h2 : attemptEngine env d none = Except.error e2) :
    load_sst_data env d = FetchOutcome.unavailable (failMessage (some e2)) ∧
    fetchAttempts env d = engines_to_try.length ∧
    (∀ (eng : Option String) (ds : Dataset) (e : String),
      env.openDS eng = Except.ok ds →
      attemptRest env eng ds d = Except.error e →
      attemptEngine env d eng = Except.error e) := by
  refine ⟨?_, ?_, ?_⟩
  · simp [load_sst_data, loadAux, engines_to_try, h1, h2]
  · simp [fetchAttempts, loadAux, engines_to_try, h1, h2]
  · intro eng ds e hop hr
    simp [attemptEngine, hop, hr]

/-- Witness for C2 (amended): in `envAllFail` both opens raise and the
call surfaces the connectivity error. -/
theorem all_attempts_fail_last_error_witness :
    load_sst_data envAllFail dJul =
      FetchOutcome.unavailable (failMessage (some "connection refused")) :=
  (all_attempts_fail_last_error envAllFail dJul
    "connection refused" "connection refused" rfl rfl).1

/-- C3: the engine order is fixed — pydap first, the built-in default
(`None`) second; a successful first attempt short-circuits the loop
(one attempt, its grid returned), and when both attempts fail the
surfaced message carries the last error observed. -/
theorem engine_order_first_success :
    engines_to_try = [some "pydap", none] ∧
    (∀ (env : Env) (d : PDate) (g : SstGrid),
      attemptEngine env d (some "pydap") = Except.ok g →
      load_sst_data env d = FetchOutcome.success g ∧ fetchAttempts env d = 1) ∧
    (∀ (env : Env) (d : PDate) (e1 e2 : String),
      attemptEngine env d (some "pydap") = Except.error e1 →
      attemptEngine env d none = Except.error e2 →
      load_sst_data env d = FetchOutcome.unavailable (failPrefix ++ e2 ++ failSuffix)) := by
  refine ⟨rfl, ?_, ?_⟩
  · intro env d g h
    constructor
    · simp [load_sst_data, loadAux, engines_to_try, h]
    · simp [fetchAttempts, loadAux, engines_to_try, h]
  · intro env d e1 e2 h1 h2
    simp [load_sst_data, loadAux, engines_to_try, h1, h2, failMessage]

/-- Witness for C3: a first-attempt success returns its grid after one
attempt. -/
theorem engine_order_first_success_witness :
    load_sst_data envPydapOk dJul =
      FetchOutcome.success (sliceGrid dsGood.sst dJul) ∧
    fetchAttempts envPydapOk dJul = 1 :=
  engine_order_first_success.2.1 envPydapOk dJul
    (sliceGrid dsGood.sst dJul) rfl

/-- C4: calling the memoized fetch a second time with the same date
returns the first call's outcome unchanged — success or failure — with
zero further network (engine) attempts, leaving the cache as it was. -/
theorem cached_fetch_idempotent (env : Env)
    (cache : List (PDate × FetchOutcome)) (d : PDate) :
    cachedLoad env (cachedLoad env cache d).2.1 d =
      ((cachedLoad env cache d).1, (cachedLoad env cache d).2.1, 0) := by
  cases h : cache.find? (fun p => decide (p.1 = d)) with
  | some p => simp [cachedLoad, h]
  | none => simp [cachedLoad, h]

/-- C5: every successful fetch comes from a listed engine whose open
succeeded, with the `sst` variable present and an exact time slice for
the requested date (no nearest-neighbour fallback); the returned grid
is the Asia-box slice — latitudes within [-10, 60], longitudes within
[60, 150], both inclusive — tagged with the date and with its cells
fully materialized from the dataset before the handle is released. -/
theorem fetch_success_exact_slice (env : Env) (d : PDate) (g : SstGrid)
    (h : load_sst_data env d = FetchOutcome.success g) :
    ∃ eng ∈ engines_to_try, ∃ ds,
      env.openDS eng = Except.ok ds ∧
      "sst" ∈ ds.varNames ∧
      d ∈ ds.sst.times ∧
      env.loadErr eng = none ∧
      g = sliceGrid ds.sst d ∧
      g.date = d ∧
      (∀ la ∈ g.lats, (-10 : Rat) ≤ la ∧ la ≤ 60) ∧
      (∀ lo ∈ g.lons, (60 : Rat) ≤ lo ∧ lo ≤ 150) ∧
      g.values = g.lats.map (fun la =>
        g.lons.map (fun lo => ds.sst.val d la lo)) := by
  obtain ⟨eng, hmem, hok⟩ :=
    loadAux_success_attempt env d engines_to_try none g h
  obtain ⟨ds, ho, hv, ht, hl, hg⟩ := attemptEngine_ok env d eng g hok
  subst hg
  exact ⟨eng, hmem, ds, ho, hv, ht, hl, rfl, rfl,
    sliceGrid_lat_mem ds.sst d, sliceGrid_lon_mem ds.sst d,
    sliceGrid_values ds.sst d⟩

/-- Witness for C5: the healthy environment's grid verifies the slice
characterization at 2023-07-15. -/
theorem fetch_success_exact_slice_witness :
    ∃ eng ∈ engines_to_try, ∃ ds,
      envPydapOk.openDS eng = Except.ok ds ∧
      "sst" ∈ ds.varNames ∧
      dJul ∈ ds.sst.times ∧
      envPydapOk.loadErr eng = none ∧
      sliceGrid dsGood.sst dJul = sliceGrid ds.sst dJul ∧
      (sliceGrid dsGood.sst dJul).date = dJul ∧
      (∀ la ∈ (sliceGrid dsGood.sst dJul).lats, (-10 : Rat) ≤ la ∧ la ≤ 60) ∧
      (∀ lo ∈ (sliceGrid dsGood.sst dJul).lons, (60 : Rat) ≤ lo ∧ lo ≤ 150) ∧
      (sliceGrid dsGood.sst dJul).values =
        (sliceGrid dsGood.sst dJul).lats.map (fun la =>
          (sliceGrid dsGood.sst dJul).lons.map (fun lo => ds.sst.val dJul la lo)) := by
  obtain ⟨eng, hmem, ds, h1, h2, h3, h4, h5, h6, h7, h8, h9⟩ :=
    fetch_success_exact_slice envPydapOk dJul
      (sliceGrid dsGood.sst dJul) rfl
  exact ⟨eng, hmem, ds, h1, h2, h3, h4, h5, h6, h7, h8, h9⟩

/-- A small concrete materialized grid (the Asia-box slice of
`dsGood` at 2023-07-15 has axes [0, 50] × [100, 150]). -/
def gSmall : SstGrid :=
  ⟨dJul, [0, 50], [100, 150],
    [[some 25, some 25], [some 25, some 25]]⟩

/-- C8: on a grid with nonempty coordinate axes the plain renderer
produces a figure (no fatal error) whose axis limits are exactly the
minimum and maximum of the grid's own longitude and latitude arrays. -/
theorem plain_renderer_limits (g : SstGrid) (d : PDate)
    (hla : g.lats ≠ []) (hlo : g.lons ≠ []) :
    ∃ fig, create_simple_latlon_plot g d = some fig ∧
      fig.xlim.1 ∈ g.lons ∧ fig.xlim.2 ∈ g.lons ∧
      (∀ x ∈ g.lons, fig.xlim.1 ≤ x ∧ x ≤ fig.xlim.2) ∧
      fig.ylim.1 ∈ g.lats ∧ fig.ylim.2 ∈ g.lats ∧
      (∀ y ∈ g.lats, fig.ylim.1 ≤ y ∧ y ≤ fig.ylim.2) := by
  obtain ⟨lo1, h1⟩ := min?_of_ne_nil g.lons hlo
  obtain ⟨lo2, h2⟩ := max?_of_ne_nil g.lons hlo
  obtain ⟨la1, h3⟩ := min?_of_ne_nil g.lats hla
  obtain ⟨la2, h4⟩ := max?_of_ne_nil g.lats hla
  have hfig : create_simple_latlon_plot g d =
      some { norm := simple_norm, cmap := simple_cmap,
             xlim := (lo1, lo2), ylim := (la1, la2),
             title := "(Cartopy 미사용) 해수면 온도: " ++ formatDate d,
             gridDashed := true } := by
    unfold create_simple_latlon_plot
    rw [h1, h2, h3, h4]
  obtain ⟨hm1, hb1⟩ := min?_spec g.lons lo1 h1
  obtain ⟨hm2, hb2⟩ := max?_spec g.lons lo2 h2
  obtain ⟨hm3, hb3⟩ := min?_spec g.lats la1 h3
  obtain ⟨hm4, hb4⟩ := max?_spec g.lats la2 h4
  exact ⟨_, hfig, hm1, hm2, fun x hx => ⟨hb1 x hx, hb2 x hx⟩,
    hm3, hm4, fun y hy => ⟨hb3 y hy, hb4 y hy⟩⟩

/-- Witness for C8: the plain renderer on the concrete grid. -/
theorem plain_renderer_limits_witness :
    ∃ fig, create_simple_latlon_plot gSmall dJul = some fig ∧
      fig.xlim.1 ∈ gSmall.lons ∧ fig.xlim.2 ∈ gSmall.lons ∧
      (∀ x ∈ gSmall.lons, fig.xlim.1 ≤ x ∧ x ≤ fig.xlim.2) ∧
      fig.ylim.1 ∈ gSmall.lats ∧ fig.ylim.2 ∈ gSmall.lats ∧
      (∀ y ∈ gSmall.lats, fig.ylim.1 ≤ y ∧ y ≤ fig.ylim.2) :=
  plain_renderer_limits gSmall dJul (by decide) (by decide)

/-- C9 counterexample: in `envLeak` the pydap open succeeds, the
attempt then fails on the missing `sst` variable and the default open
fails, so the fetch returns with one opened handle and no close — an
opened remote handle survives the fetch call. -/
theorem open_handle_leak_counterexample :
    fetchTrace envLeak dJul = [Ev.opened (some "pydap")] ∧
    countOpens (fetchTrace envLeak dJul) = 1 ∧
    countCloses (fetchTrace envLeak dJul) = 0 :=
  ⟨rfl, rfl, rfl⟩

/-- C9 (amended): a failed open creates no handle; an attempt whose
open succeeds and whose remaining steps all succeed closes its handle
before returning; an attempt that fails after a successful open leaves
its handle unclosed (the source only reaches `ds.close()` on the
success path). -/
theorem attempt_handle_discipline (env : Env) (d : PDate)
    (eng : Option String) :
    (∀ e, env.openDS eng = Except.error e → attemptTrace env d eng = []) ∧
    (∀ ds g, env.openDS eng = Except.ok ds →
      attemptRest env eng ds d = Except.ok g →
      attemptTrace env d eng = [Ev.opened eng, Ev.closed eng]) ∧
    (∀ ds e, env.openDS eng = Except.ok ds →
      attemptRest env eng ds d = Except.error e →
      attemptTrace env d eng = [Ev.opened eng]) := by
  refine ⟨?_, ?_, ?_⟩
  · intro e he
    simp [attemptTrace, he]
  · intro ds g ho hr
    simp [attemptTrace, ho, hr]
  · intro ds e ho hr
    simp [attemptTrace, ho, hr]

/-- Witness for C9 (amended): the fully successful pydap attempt in
the healthy environment opens and closes its handle. -/
theorem attempt_handle_discipline_witness :
    attemptTrace envPydapOk dJul (some "pydap") =
      [Ev.opened (some "pydap"), Ev.closed (some "pydap")] :=
  (attempt_handle_discipline envPydapOk dJul (some "pydap")).2.1
    dsGood (sliceGrid dsGood.sst dJul) rfl rfl

/-- A grid returned by a successful fetch that is not all-missing has
a non-missing cell and nonempty coordinate axes. -/
lemma success_nonnull_axes (env : Env) (d : PDate) (g : SstGrid)
    (h : load_sst_data env d = FetchOutcome.success g)
    (hn : allNullGrid g = false) :
    (∃ row ∈ g.values, ∃ c ∈ row, c.isSome = true) ∧
    g.lats ≠ [] ∧ g.lons ≠ [] := by
  obtain ⟨eng, -, hok⟩ :=
    loadAux_success_attempt env d engines_to_try none g h
  obtain ⟨ds, -, -, -, -, hg⟩ := attemptEngine_ok env d eng g hok
  have hshape : g.values = g.lats.map (fun la =>
      g.lons.map (fun lo => ds.sst.val d la lo)) := by
    rw [hg]
    rfl
  have hn' : ¬ (∀ row ∈ g.values, ∀ c ∈ row, c.isNone = true) := by
    intro hall
    have htrue : allNullGrid g = true := by
      simp only [allNullGrid, List.all_eq_true]
      exact hall
    rw [htrue] at hn
    cases hn
  push_neg at hn'
  obtain ⟨row, hrow, c, hc, hcn⟩ := hn'
  have hsome : c.isSome = true := by
    cases c with
    | none => exact absurd rfl hcn
    | some v => rfl
  refine ⟨⟨row, hrow, c, hc, hsome⟩, ?_, ?_⟩
  · intro hnil
    rw [hshape, hnil] at hrow
    simp at hrow
  · rw [hshape] at hrow
    obtain ⟨la, -, hrow'⟩ := List.mem_map.mp hrow
    intro hnil
    rw [← hrow', hnil] at hc
    simp at hc

/-- C10: the shell invokes a renderer only on a fetch outcome that is
a grid with at least one non-missing cell (hence nonempty coordinate
axes, so the plain renderer's coordinate extrema exist); on a failed
fetch or an all-missing grid it shows only the textual notice. -/
theorem shell_renders_only_valid (env : Env) (d : PDate) (hasC : Bool) :
    (∀ g, (mainView hasC (load_sst_data env d) = ShellView.figureProjected g ∨
           mainView hasC (load_sst_data env d) = ShellView.figurePlain g) →
       load_sst_data env d = FetchOutcome.success g ∧
       allNullGrid g = false ∧
       (∃ row ∈ g.values, ∃ c ∈ row, c.isSome = true) ∧
       g.lats ≠ [] ∧ g.lons ≠ []) ∧
    (∀ msg, load_sst_data env d = FetchOutcome.unavailable msg →
       mainView hasC (load_sst_data env d) = ShellView.notice) ∧
    (∀ g, load_sst_data env d = FetchOutcome.success g →
       allNullGrid g = true →
       mainView hasC (load_sst_data env d) = ShellView.notice) := by
  refine ⟨?_, ?_, ?_⟩
  · intro g hg
    cases hout : load_sst_data env d with
    | unavailable msg =>
      rw [hout] at hg
      simp [mainView] at hg
    | success g0 =>
      rw [hout] at hg
      cases hnull : allNullGrid g0 with
      | true => simp [mainView, hnull] at hg
      | false =>
        have hgg : g0 = g := by
          cases hasC <;> simp [mainView, hnull] at hg <;> exact hg
        subst hgg
        obtain ⟨hcell, hla, hlo⟩ := success_nonnull_axes env d g0 hout hnull
        exact ⟨rfl, hnull, hcell, hla, hlo⟩
  · intro msg hmsg
    rw [hmsg]
    rfl
  · intro g hs hnull
    rw [hs]
    simp [mainView, hnull]

/-- Witness for C10: in the healthy environment with cartopy present,
the projected renderer is invoked on the fetched grid, which is
non-missing with nonempty axes. -/
theorem shell_renders_only_valid_witness :
    load_sst_data envPydapOk dJul =
      FetchOutcome.success (sliceGrid dsGood.sst dJul) ∧
    allNullGrid (sliceGrid dsGood.sst dJul) = false ∧
    (∃ row ∈ (sliceGrid dsGood.sst dJul).values, ∃ c ∈ row, c.isSome = true) ∧
    (sliceGrid dsGood.sst dJul).lats ≠ [] ∧
    (sliceGrid dsGood.sst dJul).lons ≠ [] :=
  (shell_renders_only_valid envPydapOk dJul true).1
    (sliceGrid dsGood.sst dJul) (Or.inl rfl)

end AsiaSST
